import Mathlib

/-!
Verification of the medical-image-analytics chat application.

A shallow embedding of `src/app.py`: the API-key resolution at startup
(lines 6–26), the per-session state kept by the UI host (current image and
turn history, lines 60–74), the analyze-button handler (lines 76–105), the
transcript render filter (lines 114–124), the replay builder that
reconstructs the full turn list for the stateless inference call
(lines 134–161), and the follow-up handler (lines 164–183).

The remote inference call is abstracted as an `Except String String` value
(ok = the returned text, error = the message of the raised exception);
the visible effects of the UI host are recorded as a list of `Msg` values.
-/

namespace MedApp

/-- Conversation roles as the app writes them into history entries. -/
inductive Role
  | user
  | model
deriving DecidableEq, Repr

/-- One content part: inline binary media (mime type + bytes) or plain text.
Bytes are modelled as a list of naturals. -/
inductive Part
  | image (mime : String) (data : List Nat)
  | text (s : String)
deriving DecidableEq, Repr

/-- One conversation turn: `{"role": ..., "parts": [...]}`. -/
structure Turn where
  role : Role
  parts : List Part
deriving DecidableEq, Repr

/-- An uploaded file: display name, declared mime type, content bytes. -/
structure ImageFile where
  name : String
  mime : String
  data : List Nat
deriving DecidableEq, Repr

/-- The sentinel text stored as the user turn of the initial analysis
(app.py line 99), and the skip marker at lines 115 and 153. -/
def SENTINEL : String := "Analyze this medical image."

/-- The instruction text of the initial analyze request (app.py line 90). -/
def ANALYZE_INSTRUCTION : String :=
  "\nAnalyze this medical image based on the system instructions."

/-- The instruction text of the synthesized first replay turn
(app.py line 144); note it carries no leading newline. -/
def REPLAY_INSTRUCTION : String :=
  "Analyze this medical image based on the system instructions."

/-- The model-turn header checked by the transcript filter (app.py line 117). -/
def ANALYSIS_HEADER : String := "1.  **Detailed Description**"

/-- The fatal startup message (app.py line 23). -/
def API_KEY_ERROR : String :=
  "API Key not found. Please set it in Streamlit secrets or api_key.py"

/-- The no-image warning (app.py line 105). -/
def NO_IMAGE_WARNING : String := "Please upload an image first."

/-! ## Startup: API-key resolution (app.py lines 6–26) -/

/-- Python truthiness of the `api_key` variable: `None` and the empty
string are falsy, any other string is truthy. -/
def truthy : Option String → Bool
  | none => false
  | some s => !(decide (s = ""))

/-- Lines 6–20: `api_key` starts from the `api_key.py` import (`none` when
the import fails), then `st.secrets["api_key"]` is read only when the value
so far is falsy and the secrets lookup succeeds (`none` models both a
missing secrets file and a missing key). -/
def resolveApiKey (fileKey secretsKey : Option String) : Option String :=
  if truthy fileKey then fileKey
  else
    match secretsKey with
    | some v => some v
    | none => fileKey

/-- Lines 22–26: a falsy resolved key shows the fatal message and stops the
script (`Except.error`); otherwise the app is configured with the key. -/
def startup (fileKey secretsKey : Option String) : Except String String :=
  let k := resolveApiKey fileKey secretsKey
  if truthy k then Except.ok (k.getD "") else Except.error API_KEY_ERROR

/-! ## Session state (app.py lines 60–74) -/

/-- The per-session state the UI host persists across reruns: the current
image (`uploaded_file_content`/`_name`/`_type`, absent before any upload)
and the turn history. -/
structure SessionState where
  image : Option ImageFile
  history : List Turn
deriving DecidableEq, Repr

/-- Before any interaction: no image stored, empty history (line 73–74). -/
def initialState : SessionState := { image := none, history := [] }

/-- Lines 60–69: when a file is in the uploader widget, the session image is
replaced and the history reset exactly when no image is stored yet or the
stored name differs from the name of the uploaded file. -/
def uploadStep (s : SessionState) (f : ImageFile) : SessionState :=
  match s.image with
  | none => { image := some f, history := [] }
  | some g =>
    if g.name = f.name then s else { image := some f, history := [] }

/-! ## Visible effects -/

/-- The observable effects of one rerun: inference requests dispatched to
the remote service and messages rendered by the UI host. -/
inductive Msg
  | requestParts (parts : List Part)
  | requestTurns (turns : List Turn)
  | analysisShown (text : String)
  | echoShown (text : String)
  | replyShown (text : String)
  | errorShown (text : String)
  | warningShown (text : String)
deriving DecidableEq, Repr

/-! ## Turn constructors -/

/-- The image part built from the session image (lines 81–86 and 138–141). -/
def mkImagePart (f : ImageFile) : Part := Part.image f.mime f.data

/-- The sentinel user turn appended after a successful analysis (line 99). -/
def sentinelTurn : Turn := { role := Role.user, parts := [Part.text SENTINEL] }

/-- A model turn holding the returned text (lines 100 and 180). -/
def mkModelTurn (r : String) : Turn :=
  { role := Role.model, parts := [Part.text r] }

/-- The user turn holding a typed question (lines 161 and 179). -/
def newQuestionTurn (q : String) : Turn :=
  { role := Role.user, parts := [Part.text q] }

/-! ## Analyze handler (app.py lines 76–105) -/

/-- Lines 76–103: the submit handler with an image present. The request is
dispatched with the image part and the fixed instruction; on success the
sentinel user turn and the model turn are appended to the history, on
failure the state is untouched and an error message is shown. With no image
stored the branch would warn without dispatching, but in the app the widget
file always reaches the session first (lines 60–69). -/
def analyzeStep (s : SessionState) (result : Except String String) :
    SessionState × List Msg :=
  match s.image with
  | none => (s, [Msg.warningShown NO_IMAGE_WARNING])
  | some f =>
    let promptParts : List Part := [mkImagePart f, Part.text ANALYZE_INSTRUCTION]
    match result with
    | Except.ok text =>
      ({ s with history := s.history ++ [sentinelTurn, mkModelTurn text] },
       [Msg.requestParts promptParts, Msg.analysisShown text])
    | Except.error e =>
      (s, [Msg.requestParts promptParts,
           Msg.errorShown ("An error occurred: " ++ e)])

/-! ## Transcript render (app.py lines 114–124) -/

/-- Whether the first part of a turn is the plain text `s`: the Python test
`msg["parts"][0] == s` (an image part compared to a string is unequal). -/
def firstTextIs (t : Turn) (s : String) : Bool :=
  match t.parts.head? with
  | some (Part.text x) => decide (x = s)
  | _ => false

/-- Whether the first part of a turn is text starting with `s`
(`msg["parts"][0].startswith(s)`, line 117; store turns are always text). -/
def firstTextStartsWith (t : Turn) (s : String) : Bool :=
  match t.parts.head? with
  | some (Part.text x) => x.startsWith s
  | _ => false

/-- Lines 115–121: a turn is skipped by the transcript render when it is a
user turn equal to the sentinel, or a model turn starting with the analysis
header. -/
def skippedInRender (t : Turn) : Bool :=
  (decide (t.role = Role.user) && firstTextIs t SENTINEL)
  || (decide (t.role = Role.model) && firstTextStartsWith t ANALYSIS_HEADER)

/-- Lines 114–124: the turns the transcript loop actually renders. -/
def renderTranscript (h : List Turn) : List Turn :=
  h.filter (fun t => !skippedInRender t)

/-! ## Replay builder (app.py lines 134–161) -/

/-- Lines 142–145: the synthesized first turn carrying the current image and
the fixed instruction. -/
def replayFirstTurn (f : ImageFile) : Turn :=
  { role := Role.user, parts := [mkImagePart f, Part.text REPLAY_INSTRUCTION] }

/-- Lines 152–158: the stored history with every turn whose first part
equals the sentinel skipped. -/
def replayContext (h : List Turn) : List Turn :=
  h.filter (fun t => !firstTextIs t SENTINEL)

/-- Lines 134–161: the full `chat_history` list sent to the stateless call:
the synthesized image turn (only when an image is stored), the filtered
stored history, then the new question. -/
def buildChatHistory (img : Option ImageFile) (h : List Turn) (q : String) :
    List Turn :=
  (match img with
   | some f => [replayFirstTurn f]
   | none => []) ++ replayContext h ++ [newQuestionTurn q]

/-! ## Follow-up handler (app.py lines 127–183) -/

/-- Lines 127–183: the chat-input rerun. The chat input only exists when the
history is nonempty (line 108). The typed question is echoed, the rebuilt
list is dispatched; on success the question and answer are appended, on
failure the state is untouched and an error message is shown. -/
def followUpStep (s : SessionState) (q : String)
    (result : Except String String) : SessionState × List Msg :=
  if s.history.isEmpty then (s, [])
  else
    let ch := buildChatHistory s.image s.history q
    match result with
    | Except.ok text =>
      ({ s with history := s.history ++ [newQuestionTurn q, mkModelTurn text] },
       [Msg.echoShown q, Msg.requestTurns ch, Msg.replyShown text])
    | Except.error e =>
      (s, [Msg.echoShown q, Msg.requestTurns ch,
           Msg.errorShown ("An error occurred during follow-up: " ++ e)])

/-! ## Reruns -/

/-- One user interaction, i.e. one rerun of the script: uploading a file,
clicking the analyze button with or without a file in the uploader widget,
or submitting a follow-up question. `result` abstracts the outcome of
the remote call for the reruns that dispatch one. -/
inductive Event
  | rerunUpload (f : ImageFile)
  | rerunSubmitNoFile
  | rerunSubmitFile (f : ImageFile) (result : Except String String)
  | rerunFollowUp (q : String) (result : Except String String)

/-- The state transition and visible effects of one rerun. A submit rerun
with a widget file runs the upload sync (lines 60–69) before the handler,
as the script does top to bottom. -/
def rerun (s : SessionState) (e : Event) : SessionState × List Msg :=
  match e with
  | Event.rerunUpload f => (uploadStep s f, [])
  | Event.rerunSubmitNoFile => (s, [Msg.warningShown NO_IMAGE_WARNING])
  | Event.rerunSubmitFile f r => analyzeStep (uploadStep s f) r
  | Event.rerunFollowUp q r => followUpStep s q r

/-- The session state after a sequence of reruns. -/
def runEvents (s : SessionState) (es : List Event) : SessionState :=
  es.foldl (fun s e => (rerun s e).1) s

/-! ## Shape predicates -/

/-- A turn holding exactly one plain-text part, the only shape the app ever
appends to the store. -/
def isSingleText : Turn → Bool
  | { role := _, parts := [Part.text _] } => true
  | _ => false

/-- Whether any part of a turn is binary image data. -/
def isImagePart : Part → Bool
  | Part.image _ _ => true
  | Part.text _ => false

/-- Whether a turn carries image data. -/
def hasImagePart (t : Turn) : Bool := t.parts.any isImagePart

/-- Every turn of the store is a single plain-text part. -/
def storeOk (s : SessionState) : Bool := s.history.all isSingleText

/-! ## Sample data for concrete instantiations -/

/-- A sample uploaded file. -/
def sampleImageA : ImageFile :=
  { name := "scan_a.png", mime := "image/png", data := [7, 7] }

/-- A second sample file with a different name. -/
def sampleImageB : ImageFile :=
  { name := "scan_b.jpg", mime := "image/jpeg", data := [9] }

/-- A sample session after one successful analysis of `sampleImageA`. -/
def sampleState : SessionState :=
  { image := some sampleImageA,
    history := [sentinelTurn, mkModelTurn "analysis text"] }

/-! ## Helper lemmas -/

/-- A single-text turn carries no image data. -/
theorem isSingleText_no_image {t : Turn} (h : isSingleText t = true) :
    hasImagePart t = false := by
  rcases t with ⟨role, parts⟩
  cases parts with
  | nil => simp [isSingleText] at h
  | cons p ps =>
    cases p with
    | image m d => simp [isSingleText] at h
    | text x =>
      cases ps with
      | nil => simp [hasImagePart, isImagePart]
      | cons q qs => simp [isSingleText] at h

/-- The upload sync preserves the all-text shape of the store. -/
theorem storeOk_uploadStep (s : SessionState) (f : ImageFile)
    (hs : storeOk s = true) : storeOk (uploadStep s f) = true := by
  rcases s with ⟨img, hist⟩
  cases img with
  | none => simp [uploadStep, storeOk]
  | some g =>
    simp only [uploadStep]
    split
    · exact hs
    · simp [storeOk]

/-- The analyze handler preserves the all-text shape of the store. -/
theorem storeOk_analyzeStep (s : SessionState) (r : Except String String)
    (hs : storeOk s = true) : storeOk (analyzeStep s r).1 = true := by
  rcases s with ⟨img, hist⟩
  cases img with
  | none => exact hs
  | some f =>
    cases r with
    | ok text =>
      simp only [analyzeStep, storeOk, List.all_append] at *
      simp [hs, sentinelTurn, mkModelTurn, isSingleText]
    | error e => exact hs

/-- The follow-up handler preserves the all-text shape of the store. -/
theorem storeOk_followUpStep (s : SessionState) (q : String)
    (r : Except String String) (hs : storeOk s = true) :
    storeOk (followUpStep s q r).1 = true := by
  rcases s with ⟨img, hist⟩
  simp only [followUpStep]
  split
  · exact hs
  · cases r with
    | ok text =>
      simp only [storeOk, List.all_append] at *
      simp [hs, newQuestionTurn, mkModelTurn, isSingleText]
    | error e => exact hs

/-- Every rerun preserves the all-text shape of the store. -/
theorem storeOk_rerun (s : SessionState) (e : Event)
    (hs : storeOk s = true) : storeOk (rerun s e).1 = true := by
  cases e with
  | rerunUpload f => exact storeOk_uploadStep s f hs
  | rerunSubmitNoFile => exact hs
  | rerunSubmitFile f r => exact storeOk_analyzeStep _ r (storeOk_uploadStep s f hs)
  | rerunFollowUp q r => exact storeOk_followUpStep s q r hs

/-- Any sequence of reruns preserves the all-text shape of the store. -/
theorem storeOk_runEvents (es : List Event) (s : SessionState)
    (hs : storeOk s = true) : storeOk (runEvents s es) = true := by
  induction es generalizing s with
  | nil => exact hs
  | cons e es ih => exact ih _ (storeOk_rerun s e hs)

/-- Turns of the replayed context come from the store. -/
theorem replayContext_no_image {h : List Turn} (hall : h.all isSingleText = true)
    {t : Turn} (ht : t ∈ replayContext h) : hasImagePart t = false := by
  have hmem : t ∈ h := List.mem_of_mem_filter ht
  exact isSingleText_no_image (List.all_eq_true.mp hall t hmem)

end MedApp

namespace MedApp

/-- Claim C9: invariant kept by every operation — each turn ever appended to
the store has exactly one plain-text part (the image bytes live in the
session, never in the history), so image data can occur in a replay list
only in the synthesized first turn. -/
theorem history_text_only_invariant (es : List Event) (q : String) :
    storeOk (runEvents initialState es) = true
    ∧ (∀ t ∈ buildChatHistory (runEvents initialState es).image
          (runEvents initialState es).history q,
        hasImagePart t = true →
          ∃ f, (runEvents initialState es).image = some f
            ∧ t = replayFirstTurn f) := by
  have hs : storeOk (runEvents initialState es) = true :=
    storeOk_runEvents es initialState rfl
  refine ⟨hs, ?_⟩
  intro t ht himg
  cases himage : (runEvents initialState es).image with
  | none =>
    rw [himage] at ht
    simp only [buildChatHistory, List.nil_append, List.mem_append,
      List.mem_singleton] at ht
    rcases ht with ht | ht
    · have hx := replayContext_no_image hs ht
      rw [hx] at himg
      exact absurd himg (by simp)
    · subst ht
      simp [newQuestionTurn, hasImagePart, isImagePart] at himg
  | some f =>
    rw [himage] at ht
    simp only [buildChatHistory, List.mem_append, List.mem_singleton,
      List.mem_cons, List.singleton_append] at ht
    rcases ht with (ht | ht) | ht | ht
    · exact ⟨f, rfl, ht⟩
    · have hx := replayContext_no_image hs ht
      rw [hx] at himg
      exact absurd himg (by simp)
    · subst ht
      simp [newQuestionTurn, hasImagePart, isImagePart] at himg
    · simp at ht

/-- Claim C1: with a current image present, the replay list always begins
with exactly one image-bearing turn (the user turn holding the image part
and the fixed instruction), ends with a user turn whose sole part is the new
question, and no other turn carries image data. -/
theorem replay_starts_with_image_ends_with_question (es : List Event)
    (f : ImageFile) (q : String)
    (him : (runEvents initialState es).image = some f) :
    (buildChatHistory (some f) (runEvents initialState es).history q).head?
      = some (replayFirstTurn f)
    ∧ (buildChatHistory (some f) (runEvents initialState es).history q).getLast?
      = some (newQuestionTurn q)
    ∧ (buildChatHistory (some f) (runEvents initialState es).history q).countP
        hasImagePart = 1 := by
  have hs : storeOk (runEvents initialState es) = true :=
    storeOk_runEvents es initialState rfl
  refine ⟨rfl, ?_, ?_⟩
  · simp only [buildChatHistory]
    rw [List.getLast?_concat]
  · have hctx : (replayContext (runEvents initialState es).history).countP
        hasImagePart = 0 := by
      rw [List.countP_eq_zero]
      intro a ha
      simp [replayContext_no_image hs ha]
    simp [buildChatHistory, List.countP_append, List.countP_cons, hctx,
      replayFirstTurn, hasImagePart, mkImagePart, isImagePart, newQuestionTurn]

/-- Witness for C1 at concrete inputs. -/
theorem replay_shape_witness :
    (buildChatHistory (some sampleImageA)
      (runEvents initialState
        [Event.rerunSubmitFile sampleImageA (Except.ok "looks fine")]).history
      "Is this serious?").countP hasImagePart = 1 :=
  (replay_starts_with_image_ends_with_question
    [Event.rerunSubmitFile sampleImageA (Except.ok "looks fine")]
    sampleImageA "Is this serious?" rfl).2.2

end MedApp

namespace MedApp

/-- Counterexample to C2 as stated: after one analysis whose returned text is
itself exactly the sentinel string, the store is [sentinel, model sentinel]
and the follow-up replay list has 2 turns, not 3 (the stored model turn is
also filtered, since the skip tests only the turn text, not the role). -/
theorem replay_three_turns_counterexample :
    (runEvents initialState
        [Event.rerunSubmitFile sampleImageA (Except.ok SENTINEL)]).history
      = [sentinelTurn, mkModelTurn SENTINEL]
    ∧ (buildChatHistory (some sampleImageA)
        [sentinelTurn, mkModelTurn SENTINEL] "Is this serious?").length = 2 := by
  refine ⟨rfl, ?_⟩
  decide

/-- Claim C2 amended: the replay builder excludes exactly the stored turns
whose text equals the sentinel and keeps every other stored turn in original
order between the synthesized first turn and the new question; after one
analysis whose analysis text is not itself the sentinel string, a follow-up
produces a replay list of exactly 3 turns. -/
theorem replay_filters_exactly_sentinel_turns (f : ImageFile) (h : List Turn)
    (q a : String) (ha : a ≠ SENTINEL) :
    (∃ mid, buildChatHistory (some f) h q
        = replayFirstTurn f :: (mid ++ [newQuestionTurn q])
      ∧ mid.Sublist h
      ∧ ∀ t : Turn, t ∈ mid ↔ t ∈ h ∧ firstTextIs t SENTINEL = false)
    ∧ (runEvents initialState [Event.rerunSubmitFile f (Except.ok a)]).history
        = [sentinelTurn, mkModelTurn a]
    ∧ buildChatHistory (some f) [sentinelTurn, mkModelTurn a] q
        = [replayFirstTurn f, mkModelTurn a, newQuestionTurn q] := by
  refine ⟨⟨replayContext h, rfl, List.filter_sublist h, ?_⟩, rfl, ?_⟩
  · intro t
    simp [replayContext, List.mem_filter]
  · simp [buildChatHistory, replayContext, firstTextIs, sentinelTurn,
      mkModelTurn, ha]

/-- Witness for the amended C2 at concrete inputs. -/
theorem replay_filters_witness :
    (runEvents initialState
        [Event.rerunSubmitFile sampleImageA (Except.ok "analysis text")]).history
      = [sentinelTurn, mkModelTurn "analysis text"] :=
  (replay_filters_exactly_sentinel_turns sampleImageA [] "Is this serious?"
    "analysis text" (by decide)).2.1

/-- Counterexample to C7 as stated: a reachable history can hold a model turn
whose text is exactly the sentinel string (the remote service may return it),
and the render loop keeps that turn, so the sentinel text appears in the
rendered transcript. -/
theorem sentinel_in_render_counterexample :
    mkModelTurn SENTINEL ∈
      renderTranscript (runEvents initialState
        [Event.rerunSubmitFile sampleImageA (Except.ok SENTINEL)]).history := by
  set_option maxRecDepth 4000 in decide

/-- Claim C7 amended: the rendered transcript never contains a user-role turn
whose text equals the sentinel marker — every such user turn is excluded from
the render (a model-role turn with that exact text is not excluded). -/
theorem render_excludes_user_sentinel (h : List Turn) :
    (renderTranscript h).all
      (fun t => !(decide (t.role = Role.user) && firstTextIs t SENTINEL)) = true := by
  rw [List.all_eq_true]
  intro t ht
  have hmem := List.mem_filter.mp ht
  have hskip : skippedInRender t = false := by
    simpa using hmem.2
  simp only [skippedInRender, Bool.or_eq_false_iff] at hskip
  simp [hskip.1]

/-- Claim C10: a follow-up typed exactly as the sentinel text is stored as a
normal user turn, but thereafter it is skipped by every replay reconstruction
(for any later question other than the sentinel itself, the sentinel user
turn never occurs in the rebuilt list, so the model never receives it as
context) and excluded from every transcript render. -/
theorem typed_sentinel_followup (s : SessionState) (r q2 : String)
    (hh : s.history.isEmpty = false) (hq2 : q2 ≠ SENTINEL) :
    (followUpStep s SENTINEL (Except.ok r)).1.history
      = s.history ++ [{ role := Role.user, parts := [Part.text SENTINEL] },
                      { role := Role.model, parts := [Part.text r] }]
    ∧ (∀ img : Option ImageFile, ∀ h2 : List Turn,
        { role := Role.user, parts := [Part.text SENTINEL] } ∉
          buildChatHistory img h2 q2)
    ∧ ∀ h2 : List Turn,
        { role := Role.user, parts := [Part.text SENTINEL] } ∉
          renderTranscript h2 := by
  refine ⟨?_, ?_, ?_⟩
  · rcases s with ⟨img, hist⟩
    simp only at hh
    simp [followUpStep, hh, newQuestionTurn, mkModelTurn]
  · intro img h2 hmem
    simp only [buildChatHistory, List.mem_append] at hmem
    rcases hmem with (hmem | hmem) | hmem
    · cases img with
      | none => simp at hmem
      | some g => simp [replayFirstTurn, mkImagePart] at hmem
    · have := List.mem_filter.mp hmem
      simp [firstTextIs] at this
    · simp only [List.mem_singleton] at hmem
      have : SENTINEL = q2 := by
        have h3 := congrArg Turn.parts hmem
        simp [newQuestionTurn] at h3
        exact h3
      exact hq2 this.symm
  · intro h2 hmem
    have := List.mem_filter.mp hmem
    have hval : skippedInRender
        { role := Role.user, parts := [Part.text SENTINEL] } = true := by decide
    rw [hval] at this
    simp at this

/-- Witness for C10 at concrete inputs. -/
theorem typed_sentinel_followup_witness :
    (followUpStep sampleState SENTINEL (Except.ok "noted")).1.history
      = sampleState.history
        ++ [{ role := Role.user, parts := [Part.text SENTINEL] },
            { role := Role.model, parts := [Part.text "noted"] }] :=
  (typed_sentinel_followup sampleState "noted" "And now?" rfl (by decide)).1

end MedApp

namespace MedApp

/-- Claim C5: at startup the credential is resolved with the local file
(`api_key.py`) taking precedence; the secret store is consulted only when the
file yields no non-empty value, the first non-empty value wins, and when
neither yields one the process halts with the fatal message. -/
theorem apiKey_resolution_precedence (fk sk : Option String) :
    (truthy fk = true -> startup fk sk = Except.ok (fk.getD ""))
    /\ (truthy fk = false -> truthy sk = true ->
        startup fk sk = Except.ok (sk.getD ""))
    /\ (truthy fk = false -> truthy sk = false ->
        startup fk sk = Except.error API_KEY_ERROR) := by
  refine ⟨?_, ?_, ?_⟩
  · intro h1
    simp [startup, resolveApiKey, h1]
  · intro h1 h2
    cases sk with
    | none => simp [truthy] at h2
    | some v => simp [startup, resolveApiKey, h1, h2]
  · intro h1 h2
    cases sk with
    | none => simp [startup, resolveApiKey, h1, h2]
    | some v => simp [startup, resolveApiKey, h1, h2]

/-- Claim C8: clicking submit with no file in the uploader leaves the session
untouched and produces exactly one warning message: no inference request is
dispatched and nothing is appended to the store. -/
theorem submit_without_image_only_warns (s : SessionState) :
    rerun s Event.rerunSubmitNoFile = (s, [Msg.warningShown NO_IMAGE_WARNING]) := rfl

/-- Claim C4: uploading a file whose name differs from the stored image name
resets the store to empty and replaces the stored image (content, name, mime)
before any new turn is appended: a submit rerun with the new file first resets,
then appends to the fresh history only. -/
theorem new_image_resets_history (s : SessionState) (g f : ImageFile)
    (r : String) (hcur : s.image = some g) (hne : g.name ≠ f.name) :
    uploadStep s f = { image := some f, history := [] }
    /\ (rerun s (Event.rerunSubmitFile f (Except.ok r))).1
        = { image := some f, history := [sentinelTurn, mkModelTurn r] } := by
  rcases s with ⟨img, hist⟩
  simp only [SessionState.mk.injEq] at hcur
  have h1 : uploadStep ⟨img, hist⟩ f = { image := some f, history := [] } := by
    simp only [uploadStep]
    rw [show img = some g from hcur]
    simp [hne]
  refine ⟨h1, ?_⟩
  simp [rerun, h1, analyzeStep]

/-- Witness for C4 at concrete inputs. -/
theorem new_image_resets_history_witness :
    uploadStep sampleState sampleImageB
      = { image := some sampleImageB, history := [] } :=
  (new_image_resets_history sampleState sampleImageA sampleImageB "fresh"
    rfl (by decide)).1

/-- Claim C6: a successful initial analysis appends exactly two turns, a user
turn whose sole part is the sentinel text followed by a model turn whose sole
part is the returned analysis text. -/
theorem analysis_appends_two_turns (s : SessionState) (f : ImageFile)
    (r : String) (him : s.image = some f) :
    (analyzeStep s (Except.ok r)).1.history
      = s.history ++ [{ role := Role.user, parts := [Part.text SENTINEL] },
                      { role := Role.model, parts := [Part.text r] }] := by
  rcases s with ⟨img, hist⟩
  simp only [SessionState.mk.injEq] at him
  rw [show img = some f from him] at *
  simp [analyzeStep, sentinelTurn, mkModelTurn]

/-- Witness for C6 at concrete inputs. -/
theorem analysis_appends_two_turns_witness :
    (analyzeStep sampleState (Except.ok "result")).1.history
      = sampleState.history
        ++ [{ role := Role.user, parts := [Part.text SENTINEL] },
            { role := Role.model, parts := [Part.text "result"] }] :=
  analysis_appends_two_turns sampleState sampleImageA "result" rfl

/-- Claim C3: a failing inference call (initial analysis or follow-up) leaves
the whole session state unchanged, so the store contents and length are
identical before and after, and an error message is surfaced. The analyze
conjuncts hold for any history, in particular a just-reset empty one; the
follow-up error message needs the nonempty history under which the chat
input exists at all (app.py line 108). -/
theorem failed_call_leaves_store_unchanged (s : SessionState) (e q : String)
    (f : ImageFile) (him : s.image = some f) :
    (analyzeStep s (Except.error e)).1 = s
    ∧ Msg.errorShown ("An error occurred: " ++ e)
        ∈ (analyzeStep s (Except.error e)).2
    ∧ (followUpStep s q (Except.error e)).1 = s
    ∧ (s.history.isEmpty = false →
        Msg.errorShown ("An error occurred during follow-up: " ++ e)
          ∈ (followUpStep s q (Except.error e)).2) := by
  rcases s with ⟨img, hist⟩
  simp only [SessionState.mk.injEq] at him
  rw [show img = some f from him]
  refine ⟨?_, ?_, ?_, ?_⟩
  · simp [analyzeStep]
  · simp [analyzeStep]
  · by_cases hh : hist.isEmpty <;> simp [followUpStep, hh]
  · intro hh
    simp only at hh
    simp [followUpStep, hh]

/-- Witness for C3 at concrete inputs. -/
theorem failed_call_witness :
    (analyzeStep sampleState (Except.error "boom")).1 = sampleState :=
  (failed_call_leaves_store_unchanged sampleState "boom" "why?" sampleImageA
    rfl).1

end MedApp
